import Mathlib

/-!
Germany Severance Calculator — verification of the core engine.

Shallow embedding of the pure calculation core of `app.py`:
postal-code-to-region resolution (`get_state_from_plz`), the
Fünftelregelung severance-tax formula (`calculate_fuenftelregelung_tax`),
the two-year scenario engine (`calculate_scenario`), and the
breakeven-severance recommendation solver inlined in `main`.

Python floats are modelled exactly over `ℚ` (the spec's claims are stated
in exact arithmetic); month counts are `ℤ`; a Python `ZeroDivisionError`
or `ValueError` is modelled as `Option.none` at the one place each can
occur.
-/

namespace SeveranceCalc

/-- Region record returned by the resolver: `(state_name, has_familiengeld,
familiengeld_amount)`, mirroring the Python tuple. -/
abbrev Region := String × Bool × ℕ

/-- `get_state_from_plz` from `app.py` (lines 91–167), after the
`plz = int(plz)` conversion: the ordered first-match chain of numeric
range predicates.  Python's chained comparison `a <= plz <= b` is
`a ≤ plz ∧ plz ≤ b`; `and` binds tighter than `or`. -/
def get_state_from_plz (plz : ℤ) : Region :=
  if 80000 ≤ plz ∧ plz ≤ 87999 ∨ 89000 ≤ plz ∧ plz ≤ 89999 ∨ 91000 ≤ plz ∧ plz ≤ 94999 then
    ("Bayern (Bavaria)", true, 250)
  else if 1000 ≤ plz ∧ plz ≤ 1999 ∨ 2600 ≤ plz ∧ plz ≤ 2999 ∨ 4000 ≤ plz ∧ plz ≤ 4999 then
    ("Sachsen (Saxony)", true, 200)
  else if 96000 ≤ plz ∧ plz ≤ 99999 ∨ 7000 ≤ plz ∧ plz ≤ 7999 then
    ("Thüringen (Thuringia)", true, 200)
  else if 10000 ≤ plz ∧ plz ≤ 14999 then
    ("Berlin", false, 0)
  else if 3000 ≤ plz ∧ plz ≤ 3999 ∨ 14400 ≤ plz ∧ plz ≤ 16999 ∨ 19300 ≤ plz ∧ plz ≤ 19357 then
    ("Brandenburg", false, 0)
  else if (17000 ≤ plz ∧ plz ≤ 19999) ∧ ¬(19300 ≤ plz ∧ plz ≤ 19357) then
    ("Mecklenburg-Vorpommern", false, 0)
  else if 20000 ≤ plz ∧ plz ≤ 21999 ∨ 22000 ≤ plz ∧ plz ≤ 22999 ∨ 27000 ≤ plz ∧ plz ≤ 27999 then
    ("Hamburg", false, 0)
  else if 24000 ≤ plz ∧ plz ≤ 25999 ∨ 23000 ≤ plz ∧ plz ≤ 23999 then
    ("Schleswig-Holstein", false, 0)
  else if 28000 ≤ plz ∧ plz ≤ 28999 ∨ (26000 ≤ plz ∧ plz ≤ 27999) ∧ ¬(27000 ≤ plz ∧ plz ≤ 27999) then
    ("Bremen", false, 0)
  else if 26000 ≤ plz ∧ plz ≤ 27999 ∨ 29000 ≤ plz ∧ plz ≤ 31999 ∨ 37000 ≤ plz ∧ plz ≤ 38999 ∨
      48000 ≤ plz ∧ plz ≤ 49999 then
    ("Niedersachsen (Lower Saxony)", false, 0)
  else if 32000 ≤ plz ∧ plz ≤ 33999 ∨ 34000 ≤ plz ∧ plz ≤ 36999 ∨ 40000 ≤ plz ∧ plz ≤ 47999 ∨
      50000 ≤ plz ∧ plz ≤ 53999 ∨ 57000 ≤ plz ∧ plz ≤ 59999 then
    ("Nordrhein-Westfalen (NRW)", false, 0)
  else if 34000 ≤ plz ∧ plz ≤ 36999 ∨ 60000 ≤ plz ∧ plz ≤ 64999 ∨ 65000 ≤ plz ∧ plz ≤ 66999 then
    ("Hessen (Hesse)", false, 0)
  else if 54000 ≤ plz ∧ plz ≤ 56999 ∨ 66000 ≤ plz ∧ plz ≤ 67999 then
    ("Rheinland-Pfalz (Rhineland-Palatinate)", false, 0)
  else if 66000 ≤ plz ∧ plz ≤ 66999 then
    ("Saarland", false, 0)
  else if 68000 ≤ plz ∧ plz ≤ 69999 ∨ 70000 ≤ plz ∧ plz ≤ 76999 ∨ 77000 ≤ plz ∧ plz ≤ 79999 ∨
      88000 ≤ plz ∧ plz ≤ 88999 then
    ("Baden-Württemberg", false, 0)
  else if 6000 ≤ plz ∧ plz ≤ 6999 ∨ 38000 ≤ plz ∧ plz ≤ 39999 then
    ("Sachsen-Anhalt (Saxony-Anhalt)", false, 0)
  else
    ("Unknown", false, 0)

/-- Python's `int(s)` on a string: an optional sign followed by a nonempty
run of decimal digits parses to that integer; anything else raises
`ValueError`, modelled as `none`.  (Python additionally tolerates
surrounding whitespace and `_` digit separators; neither occurs in the
inputs at issue.) -/
def pyIntOfString (s : String) : Option ℤ :=
  let cs := s.toList
  let signAndDigits : ℤ × List Char :=
    match cs with
    | '-' :: rest => (-1, rest)
    | '+' :: rest => (1, rest)
    | _ => (1, cs)
  if signAndDigits.2 ≠ [] ∧ signAndDigits.2.all Char.isDigit then
    some (signAndDigits.1 *
      signAndDigits.2.foldl (fun acc c => 10 * acc + ((c.toNat : ℤ) - 48)) 0)
  else none

/-- `get_state_from_plz` as actually invoked on the raw text input: the
function body begins with `plz = int(plz)`, so a non-numeric string makes
it raise `ValueError` (modelled as `none`) before any range is tested. -/
def get_state_from_plz_str (s : String) : Option Region :=
  (pyIntOfString s).map get_state_from_plz

/-- The caller-side resolution in `main` (app.py lines 470–488): the
resolver is only invoked for inputs of length ≥ 4, inside
`try: ... except: ("Unknown", False, 0)`; shorter inputs get the sentinel
directly. -/
def resolve_region (s : String) : Region :=
  if 4 ≤ s.length then (get_state_from_plz_str s).getD ("Unknown", false, 0)
  else ("Unknown", false, 0)

/-- `calculate_fuenftelregelung_tax` from `app.py` (lines 173–198).
Returns `(net_severance, total_sev_tax, effective_rate)`. -/
def calculate_fuenftelregelung_tax (annual_salary severance_amount net_rate_on_salary : ℚ) :
    ℚ × ℚ × ℚ :=
  let tax_rate_salary := 1 - net_rate_on_salary
  let tax_on_salary := annual_salary * tax_rate_salary
  let fifth_of_severance := severance_amount / 5
  let combined_income := annual_salary + fifth_of_severance
  let tax_on_combined := combined_income * tax_rate_salary
  let tax_per_fifth := tax_on_combined - tax_on_salary
  let total_sev_tax := tax_per_fifth * 5
  let net_severance := severance_amount - total_sev_tax
  let effective_rate := if severance_amount > 0 then total_sev_tax / severance_amount else 0
  (net_severance, total_sev_tax, effective_rate)

/-- Modelled from the spec's refinement comparison for the carve-out
question: the same ordered rule list as `get_state_from_plz`, with the two
carve-out clauses (`and not (19300 <= plz <= 19357)` in the
Mecklenburg-Vorpommern branch and `and not (27000 <= plz <= 27999)` in the
Bremen branch) removed.  Everything else is byte-identical in order and
content. -/
def get_state_from_plz_no_carveouts (plz : ℤ) : Region :=
  if 80000 ≤ plz ∧ plz ≤ 87999 ∨ 89000 ≤ plz ∧ plz ≤ 89999 ∨ 91000 ≤ plz ∧ plz ≤ 94999 then
    ("Bayern (Bavaria)", true, 250)
  else if 1000 ≤ plz ∧ plz ≤ 1999 ∨ 2600 ≤ plz ∧ plz ≤ 2999 ∨ 4000 ≤ plz ∧ plz ≤ 4999 then
    ("Sachsen (Saxony)", true, 200)
  else if 96000 ≤ plz ∧ plz ≤ 99999 ∨ 7000 ≤ plz ∧ plz ≤ 7999 then
    ("Thüringen (Thuringia)", true, 200)
  else if 10000 ≤ plz ∧ plz ≤ 14999 then
    ("Berlin", false, 0)
  else if 3000 ≤ plz ∧ plz ≤ 3999 ∨ 14400 ≤ plz ∧ plz ≤ 16999 ∨ 19300 ≤ plz ∧ plz ≤ 19357 then
    ("Brandenburg", false, 0)
  else if 17000 ≤ plz ∧ plz ≤ 19999 then
    ("Mecklenburg-Vorpommern", false, 0)
  else if 20000 ≤ plz ∧ plz ≤ 21999 ∨ 22000 ≤ plz ∧ plz ≤ 22999 ∨ 27000 ≤ plz ∧ plz ≤ 27999 then
    ("Hamburg", false, 0)
  else if 24000 ≤ plz ∧ plz ≤ 25999 ∨ 23000 ≤ plz ∧ plz ≤ 23999 then
    ("Schleswig-Holstein", false, 0)
  else if 28000 ≤ plz ∧ plz ≤ 28999 ∨ 26000 ≤ plz ∧ plz ≤ 27999 then
    ("Bremen", false, 0)
  else if 26000 ≤ plz ∧ plz ≤ 27999 ∨ 29000 ≤ plz ∧ plz ≤ 31999 ∨ 37000 ≤ plz ∧ plz ≤ 38999 ∨
      48000 ≤ plz ∧ plz ≤ 49999 then
    ("Niedersachsen (Lower Saxony)", false, 0)
  else if 32000 ≤ plz ∧ plz ≤ 33999 ∨ 34000 ≤ plz ∧ plz ≤ 36999 ∨ 40000 ≤ plz ∧ plz ≤ 47999 ∨
      50000 ≤ plz ∧ plz ≤ 53999 ∨ 57000 ≤ plz ∧ plz ≤ 59999 then
    ("Nordrhein-Westfalen (NRW)", false, 0)
  else if 34000 ≤ plz ∧ plz ≤ 36999 ∨ 60000 ≤ plz ∧ plz ≤ 64999 ∨ 65000 ≤ plz ∧ plz ≤ 66999 then
    ("Hessen (Hesse)", false, 0)
  else if 54000 ≤ plz ∧ plz ≤ 56999 ∨ 66000 ≤ plz ∧ plz ≤ 67999 then
    ("Rheinland-Pfalz (Rhineland-Palatinate)", false, 0)
  else if 66000 ≤ plz ∧ plz ≤ 66999 then
    ("Saarland", false, 0)
  else if 68000 ≤ plz ∧ plz ≤ 69999 ∨ 70000 ≤ plz ∧ plz ≤ 76999 ∨ 77000 ≤ plz ∧ plz ≤ 79999 ∨
      88000 ≤ plz ∧ plz ≤ 88999 then
    ("Baden-Württemberg", false, 0)
  else if 6000 ≤ plz ∧ plz ≤ 6999 ∨ 38000 ≤ plz ∧ plz ≤ 39999 then
    ("Sachsen-Anhalt (Saxony-Anhalt)", false, 0)
  else
    ("Unknown", false, 0)

/-- Flat net salary rate from the tax-class selector (app.py lines 210–213):
`0.67` for `"Tax Class 3 (Married)"`, else `0.60`. -/
def net_rate_salary (tax_class : String) : ℚ :=
  if tax_class = "Tax Class 3 (Married)" then 67/100 else 60/100

/-- ALG1 rate (app.py line 216): `0.67` with children, else `0.60`. -/
def alg1_rate (has_children : Bool) : ℚ :=
  if has_children then 67/100 else 60/100

/-- The result dictionary of `calculate_scenario` (app.py lines 287–323),
one field per numeric/string entry. -/
structure ScenarioResult where
  monthly_gross : ℚ
  monthly_net : ℚ
  gross_severance : ℚ
  sev_tax : ℚ
  sev_tax_rate : ℚ
  net_severance : ℚ
  salary_2026 : ℚ
  months_worked_2026 : ℤ
  alg1_monthly : ℚ
  alg1_2026 : ℚ
  alg1_2027 : ℚ
  months_alg1_2027 : ℤ
  total_alg1_months : ℤ
  kindergeld_monthly : ℚ
  kindergeld_2026 : ℚ
  kindergeld_2027 : ℚ
  familiengeld_monthly : ℚ
  familiengeld_2026 : ℚ
  familiengeld_2027 : ℚ
  total_2026 : ℚ
  total_2027 : ℚ
  income_percentage_2026 : ℚ
  income_percentage_2027 : ℚ
  total_2_years : ℚ
  runway_months : ℚ
  cash_after_exit : ℚ
  cash_after_exit_2026 : ℚ
  cash_after_exit_2027 : ℚ
  total_income_after_exit : ℚ
  sperrzeit_months : ℤ
  state_name : String
  has_familiengeld : Bool
  num_eligible_familiengeld : ℕ
  months_remaining_2026 : ℤ
  months_alg1_2026 : ℤ

/-- `calculate_scenario` from `app.py` (lines 200–323).  All money values
are exact rationals; month counts are integers; every division the source
guards with a `> 0` test is guarded by the same test here. -/
def calculate_scenario (annual_salary severance_months : ℚ) (tax_class : String)
    (has_children : Bool) (monthly_expenses : ℚ) (sperrzeit_months : ℤ)
    (num_children : ℕ) (state_name : String) (has_familiengeld : Bool)
    (familiengeld_amount : ℚ) (child_ages : List ℤ) (months_worked_2026 : ℤ) :
    ScenarioResult :=
  let nrs := net_rate_salary tax_class
  let ar := alg1_rate has_children
  let kindergeld_monthly : ℚ := if has_children then 250 * (num_children : ℚ) else 0
  let num_eligible_familiengeld : ℕ :=
    if has_children && has_familiengeld && !child_ages.isEmpty then
      (child_ages.filter (fun age => decide (1 ≤ age ∧ age ≤ 3))).length
    else 0
  let familiengeld_monthly : ℚ :=
    if has_familiengeld then familiengeld_amount * (num_eligible_familiengeld : ℚ) else 0
  let monthly_gross := annual_salary / 12
  let monthly_net := monthly_gross * nrs
  let gross_severance := monthly_gross * severance_months
  let taxResult := calculate_fuenftelregelung_tax annual_salary gross_severance nrs
  let net_severance := taxResult.1
  let sev_tax := taxResult.2.1
  let sev_tax_rate := taxResult.2.2
  let salary_2026 := monthly_net * (months_worked_2026 : ℚ)
  let alg1_monthly := monthly_net * ar
  let months_remaining_2026 := 12 - months_worked_2026
  let months_alg1_2026 := max 0 (months_remaining_2026 - sperrzeit_months)
  let alg1_2026 := alg1_monthly * (months_alg1_2026 : ℚ)
  let kindergeld_2026 := kindergeld_monthly * 12
  let familiengeld_2026 := familiengeld_monthly * 12
  let months_alg1_2027 := max 0 (12 - months_alg1_2026)
  let alg1_2027 := alg1_monthly * (months_alg1_2027 : ℚ)
  let kindergeld_2027 := kindergeld_monthly * 12
  let familiengeld_2027 := familiengeld_monthly * 12
  let total_alg1_months := months_alg1_2026 + months_alg1_2027
  let total_2026 := salary_2026 + net_severance + alg1_2026 + kindergeld_2026 + familiengeld_2026
  let total_2027 := alg1_2027 + kindergeld_2027 + familiengeld_2027
  let total_2_years := total_2026 + total_2027
  let income_percentage_2026 := if annual_salary > 0 then total_2026 / annual_salary * 100 else 0
  let income_percentage_2027 := if annual_salary > 0 then total_2027 / annual_salary * 100 else 0
  let cash_after_exit := net_severance + alg1_2026 + alg1_2027 + kindergeld_2026 +
    kindergeld_2027 + familiengeld_2026 + familiengeld_2027
  let cash_after_exit_2026 := net_severance + alg1_2026 + kindergeld_2026 + familiengeld_2026
  let cash_after_exit_2027 := alg1_2027 + kindergeld_2027 + familiengeld_2027
  let runway_months := if monthly_expenses > 0 then cash_after_exit / monthly_expenses else 0
  { monthly_gross := monthly_gross
    monthly_net := monthly_net
    gross_severance := gross_severance
    sev_tax := sev_tax
    sev_tax_rate := sev_tax_rate
    net_severance := net_severance
    salary_2026 := salary_2026
    months_worked_2026 := months_worked_2026
    alg1_monthly := alg1_monthly
    alg1_2026 := alg1_2026
    alg1_2027 := alg1_2027
    months_alg1_2027 := months_alg1_2027
    total_alg1_months := total_alg1_months
    kindergeld_monthly := kindergeld_monthly
    kindergeld_2026 := kindergeld_2026
    kindergeld_2027 := kindergeld_2027
    familiengeld_monthly := familiengeld_monthly
    familiengeld_2026 := familiengeld_2026
    familiengeld_2027 := familiengeld_2027
    total_2026 := total_2026
    total_2027 := total_2027
    income_percentage_2026 := income_percentage_2026
    income_percentage_2027 := income_percentage_2027
    total_2_years := total_2_years
    runway_months := runway_months
    cash_after_exit := cash_after_exit
    cash_after_exit_2026 := cash_after_exit_2026
    cash_after_exit_2027 := cash_after_exit_2027
    total_income_after_exit := cash_after_exit
    sperrzeit_months := sperrzeit_months
    state_name := state_name
    has_familiengeld := has_familiengeld
    num_eligible_familiengeld := num_eligible_familiengeld
    months_remaining_2026 := months_remaining_2026
    months_alg1_2026 := months_alg1_2026 }

/-- Projected two-year expense total of the recommendation solver
(app.py lines 590–596): `monthly_expenses * (12 - months_worked_2026)`
for the rest of the exit year plus `monthly_expenses * 12` for the
following year. -/
def total_expenses_projected (monthly_expenses : ℚ) (months_worked_2026 : ℤ) : ℚ :=
  monthly_expenses * ((12 - months_worked_2026 : ℤ) : ℚ) + monthly_expenses * 12

/-- `net_per_severance_month` of the recommendation solver (app.py lines
599–603): marginal net value of one more severance month, reusing the
realized net rate, with the `0.75` default when gross severance is 0. -/
def net_per_severance_month (annual_salary severance_months : ℚ) (tax_class : String)
    (has_children : Bool) (monthly_expenses : ℚ) (sperrzeit_months : ℤ)
    (num_children : ℕ) (state_name : String) (has_familiengeld : Bool)
    (familiengeld_amount : ℚ) (child_ages : List ℤ) (months_worked_2026 : ℤ) : ℚ :=
  let results := calculate_scenario annual_salary severance_months tax_class has_children
    monthly_expenses sperrzeit_months num_children state_name has_familiengeld
    familiengeld_amount child_ages months_worked_2026
  let net_severance_rate :=
    if results.gross_severance > 0 then results.net_severance / results.gross_severance
    else 75/100
  results.monthly_gross * net_severance_rate

/-- `breakeven_months` of the recommendation solver (app.py lines 609–610):
`current_sev_months + (total_expenses_projected - total_income_after_exit)
/ net_per_severance_month`.  Stated as the exact value of the division;
the solver performs this division unguarded (see `breakeven_monthsDiv`). -/
def breakeven_exact (annual_salary severance_months : ℚ) (tax_class : String)
    (has_children : Bool) (monthly_expenses : ℚ) (sperrzeit_months : ℤ)
    (num_children : ℕ) (state_name : String) (has_familiengeld : Bool)
    (familiengeld_amount : ℚ) (child_ages : List ℤ) (months_worked_2026 : ℤ) : ℚ :=
  let results := calculate_scenario annual_salary severance_months tax_class has_children
    monthly_expenses sperrzeit_months num_children state_name has_familiengeld
    familiengeld_amount child_ages months_worked_2026
  severance_months +
    (total_expenses_projected monthly_expenses months_worked_2026 - results.cash_after_exit) /
      net_per_severance_month annual_salary severance_months tax_class has_children
        monthly_expenses sperrzeit_months num_children state_name has_familiengeld
        familiengeld_amount child_ages months_worked_2026

/-- The unguarded division at app.py line 609: dividing by a zero
`net_per_severance_month` raises `ZeroDivisionError` in the source,
modelled as `none`.  This is the end-to-end core pipeline: it evaluates
`calculate_scenario` (hence the tax formula and the runway division) on
the way to the breakeven count. -/
def breakeven_monthsDiv (annual_salary severance_months : ℚ) (tax_class : String)
    (has_children : Bool) (monthly_expenses : ℚ) (sperrzeit_months : ℤ)
    (num_children : ℕ) (state_name : String) (has_familiengeld : Bool)
    (familiengeld_amount : ℚ) (child_ages : List ℤ) (months_worked_2026 : ℤ) : Option ℚ :=
  if net_per_severance_month annual_salary severance_months tax_class has_children
      monthly_expenses sperrzeit_months num_children state_name has_familiengeld
      familiengeld_amount child_ages months_worked_2026 = 0 then none
  else some (breakeven_exact annual_salary severance_months tax_class has_children
    monthly_expenses sperrzeit_months num_children state_name has_familiengeld
    familiengeld_amount child_ages months_worked_2026)

/-- Python's `int()` applied to a float/rational: truncation toward zero. -/
def pyint (q : ℚ) : ℤ := if 0 ≤ q then ⌊q⌋ else ⌈q⌉

/-- The three candidate severance-month counts of the recommendation
solver (app.py lines 613–615):
`option_deficit = max(1, int(breakeven_months - 1))`,
`option_breakeven = max(1, math.ceil(breakeven_months))`,
`option_surplus = max(1, int(breakeven_months + 2))`; `none` when the
breakeven division raised. -/
def recommended_options (annual_salary severance_months : ℚ) (tax_class : String)
    (has_children : Bool) (monthly_expenses : ℚ) (sperrzeit_months : ℤ)
    (num_children : ℕ) (state_name : String) (has_familiengeld : Bool)
    (familiengeld_amount : ℚ) (child_ages : List ℤ) (months_worked_2026 : ℤ) :
    Option (ℤ × ℤ × ℤ) :=
  (breakeven_monthsDiv annual_salary severance_months tax_class has_children
      monthly_expenses sperrzeit_months num_children state_name has_familiengeld
      familiengeld_amount child_ages months_worked_2026).map
    (fun b => (max 1 (pyint (b - 1)), max 1 ⌈b⌉, max 1 (pyint (b + 2))))

/-! ## Helper lemmas about the embedded definitions -/

theorem fuenftel_net (A sev r : ℚ) :
    (calculate_fuenftelregelung_tax A sev r).1 = sev * r := by
  show sev - ((A + sev / 5) * (1 - r) - A * (1 - r)) * 5 = sev * r
  ring

theorem fuenftel_tax (A sev r : ℚ) :
    (calculate_fuenftelregelung_tax A sev r).2.1 = sev * (1 - r) := by
  show ((A + sev / 5) * (1 - r) - A * (1 - r)) * 5 = sev * (1 - r)
  ring

theorem fuenftel_eff (A sev r : ℚ) (hsev : 0 < sev) :
    (calculate_fuenftelregelung_tax A sev r).2.2 = 1 - r := by
  show (if sev > 0 then ((A + sev / 5) * (1 - r) - A * (1 - r)) * 5 / sev else 0) = 1 - r
  rw [if_pos hsev, div_eq_iff (ne_of_gt hsev)]
  ring

theorem net_rate_salary_pos (tc : String) : 0 < net_rate_salary tc := by
  unfold net_rate_salary
  split <;> norm_num

theorem scenario_monthly_gross (A sm : ℚ) (tc : String) (hc : Bool) (me : ℚ) (sz : ℤ)
    (nc : ℕ) (sn : String) (hf : Bool) (fa : ℚ) (ca : List ℤ) (mw : ℤ) :
    (calculate_scenario A sm tc hc me sz nc sn hf fa ca mw).monthly_gross = A / 12 := rfl

theorem scenario_gross_severance (A sm : ℚ) (tc : String) (hc : Bool) (me : ℚ) (sz : ℤ)
    (nc : ℕ) (sn : String) (hf : Bool) (fa : ℚ) (ca : List ℤ) (mw : ℤ) :
    (calculate_scenario A sm tc hc me sz nc sn hf fa ca mw).gross_severance =
      A / 12 * sm := rfl

theorem scenario_net_severance (A sm : ℚ) (tc : String) (hc : Bool) (me : ℚ) (sz : ℤ)
    (nc : ℕ) (sn : String) (hf : Bool) (fa : ℚ) (ca : List ℤ) (mw : ℤ) :
    (calculate_scenario A sm tc hc me sz nc sn hf fa ca mw).net_severance =
      A / 12 * sm * net_rate_salary tc := by
  show (calculate_fuenftelregelung_tax A (A / 12 * sm) (net_rate_salary tc)).1 = _
  rw [fuenftel_net]

theorem scenario_sev_tax_rate (A sm : ℚ) (tc : String) (hc : Bool) (me : ℚ) (sz : ℤ)
    (nc : ℕ) (sn : String) (hf : Bool) (fa : ℚ) (ca : List ℤ) (mw : ℤ) :
    (calculate_scenario A sm tc hc me sz nc sn hf fa ca mw).sev_tax_rate =
      (calculate_fuenftelregelung_tax A (A / 12 * sm) (net_rate_salary tc)).2.2 := rfl

theorem scenario_m26 (A sm : ℚ) (tc : String) (hc : Bool) (me : ℚ) (sz : ℤ)
    (nc : ℕ) (sn : String) (hf : Bool) (fa : ℚ) (ca : List ℤ) (mw : ℤ) :
    (calculate_scenario A sm tc hc me sz nc sn hf fa ca mw).months_alg1_2026 =
      max 0 (12 - mw - sz) := rfl

theorem scenario_m27 (A sm : ℚ) (tc : String) (hc : Bool) (me : ℚ) (sz : ℤ)
    (nc : ℕ) (sn : String) (hf : Bool) (fa : ℚ) (ca : List ℤ) (mw : ℤ) :
    (calculate_scenario A sm tc hc me sz nc sn hf fa ca mw).months_alg1_2027 =
      max 0 (12 - max 0 (12 - mw - sz)) := rfl

theorem scenario_runway (A sm : ℚ) (tc : String) (hc : Bool) (me : ℚ) (sz : ℤ)
    (nc : ℕ) (sn : String) (hf : Bool) (fa : ℚ) (ca : List ℤ) (mw : ℤ) :
    (calculate_scenario A sm tc hc me sz nc sn hf fa ca mw).runway_months =
      if me > 0 then (calculate_scenario A sm tc hc me sz nc sn hf fa ca mw).cash_after_exit / me
      else 0 := rfl

theorem scenario_cash (A sm : ℚ) (tc : String) (hc : Bool) (me : ℚ) (sz : ℤ)
    (nc : ℕ) (sn : String) (hf : Bool) (fa : ℚ) (ca : List ℤ) (mw : ℤ) :
    (calculate_scenario A sm tc hc me sz nc sn hf fa ca mw).cash_after_exit =
      (calculate_scenario A sm tc hc me sz nc sn hf fa ca mw).net_severance +
      (calculate_scenario A sm tc hc me sz nc sn hf fa ca mw).alg1_2026 +
      (calculate_scenario A sm tc hc me sz nc sn hf fa ca mw).alg1_2027 +
      (calculate_scenario A sm tc hc me sz nc sn hf fa ca mw).kindergeld_2026 +
      (calculate_scenario A sm tc hc me sz nc sn hf fa ca mw).kindergeld_2027 +
      (calculate_scenario A sm tc hc me sz nc sn hf fa ca mw).familiengeld_2026 +
      (calculate_scenario A sm tc hc me sz nc sn hf fa ca mw).familiengeld_2027 := rfl

/-- Every cash-after-exit component other than the net severance is
independent of `severance_months` (they are built from salary, rates and
month counts only). -/
theorem scenario_benefits_indep (A sm sm' : ℚ) (tc : String) (hc : Bool) (me : ℚ) (sz : ℤ)
    (nc : ℕ) (sn : String) (hf : Bool) (fa : ℚ) (ca : List ℤ) (mw : ℤ) :
    (calculate_scenario A sm tc hc me sz nc sn hf fa ca mw).alg1_2026 =
      (calculate_scenario A sm' tc hc me sz nc sn hf fa ca mw).alg1_2026 ∧
    (calculate_scenario A sm tc hc me sz nc sn hf fa ca mw).alg1_2027 =
      (calculate_scenario A sm' tc hc me sz nc sn hf fa ca mw).alg1_2027 ∧
    (calculate_scenario A sm tc hc me sz nc sn hf fa ca mw).kindergeld_2026 =
      (calculate_scenario A sm' tc hc me sz nc sn hf fa ca mw).kindergeld_2026 ∧
    (calculate_scenario A sm tc hc me sz nc sn hf fa ca mw).kindergeld_2027 =
      (calculate_scenario A sm' tc hc me sz nc sn hf fa ca mw).kindergeld_2027 ∧
    (calculate_scenario A sm tc hc me sz nc sn hf fa ca mw).familiengeld_2026 =
      (calculate_scenario A sm' tc hc me sz nc sn hf fa ca mw).familiengeld_2026 ∧
    (calculate_scenario A sm tc hc me sz nc sn hf fa ca mw).familiengeld_2027 =
      (calculate_scenario A sm' tc hc me sz nc sn hf fa ca mw).familiengeld_2027 :=
  ⟨rfl, rfl, rfl, rfl, rfl, rfl⟩

theorem net_per_severance_month_pos (A sm : ℚ) (tc : String) (hc : Bool) (me : ℚ) (sz : ℤ)
    (nc : ℕ) (sn : String) (hf : Bool) (fa : ℚ) (ca : List ℤ) (mw : ℤ) (hA : 0 < A) :
    0 < net_per_severance_month A sm tc hc me sz nc sn hf fa ca mw := by
  show 0 < (calculate_scenario A sm tc hc me sz nc sn hf fa ca mw).monthly_gross *
    (if (calculate_scenario A sm tc hc me sz nc sn hf fa ca mw).gross_severance > 0 then
      (calculate_scenario A sm tc hc me sz nc sn hf fa ca mw).net_severance /
        (calculate_scenario A sm tc hc me sz nc sn hf fa ca mw).gross_severance
     else 75/100)
  rw [scenario_monthly_gross]
  have h12 : 0 < A / 12 := by positivity
  split_ifs with hg
  · rw [scenario_net_severance, scenario_gross_severance] at *
    rw [mul_div_cancel_left₀ _ (ne_of_gt hg)]
    exact mul_pos h12 (net_rate_salary_pos tc)
  · exact mul_pos h12 (by norm_num)

theorem max_one_pyint_sub_one (b : ℚ) : max 1 (pyint (b - 1)) = max 1 (⌊b⌋ - 1) := by
  unfold pyint
  split_ifs with h
  · have hfl := Int.floor_sub_int b 1
    push_cast at hfl
    rw [hfl]
  · have hb : b - 1 < 0 := not_le.mp h
    have h1 : ⌈b - 1⌉ ≤ 0 := Int.ceil_le.mpr (by push_cast; linarith)
    have h2 : ⌊b⌋ < 1 := Int.floor_lt.mpr (by push_cast; linarith)
    omega

theorem max_one_pyint_add_two (b : ℚ) : max 1 (pyint (b + 2)) = max 1 (⌊b⌋ + 2) := by
  unfold pyint
  split_ifs with h
  · have hfl := Int.floor_add_int b 2
    push_cast at hfl
    rw [hfl]
  · have hb : b + 2 < 0 := not_le.mp h
    have h1 : ⌈b + 2⌉ ≤ 0 := Int.ceil_le.mpr (by push_cast; linarith)
    have h2 : ⌊b⌋ < -2 := Int.floor_lt.mpr (by push_cast; linarith)
    omega

/-! ## Claim theorems -/

/-- C1: for every input with `monthsWorkedInExitYear` in 1..12 and
`sperrzeitMonths` in 0..6, the exit-year unemployment-benefit months
equal `max(0, 12 - monthsWorkedInExitYear - sperrzeitMonths)` and the
two-year benefit-month total is at most 12. -/
theorem alg1_exit_year_formula_and_cap (A sm : ℚ) (tc : String) (hc : Bool) (me : ℚ)
    (sz : ℤ) (nc : ℕ) (sn : String) (hf : Bool) (fa : ℚ) (ca : List ℤ) (mw : ℤ)
    (hmw1 : 1 ≤ mw) (hmw2 : mw ≤ 12) (hsz1 : 0 ≤ sz) (hsz2 : sz ≤ 6) :
    (calculate_scenario A sm tc hc me sz nc sn hf fa ca mw).months_alg1_2026 =
      max 0 (12 - mw - sz) ∧
    (calculate_scenario A sm tc hc me sz nc sn hf fa ca mw).months_alg1_2026 +
      (calculate_scenario A sm tc hc me sz nc sn hf fa ca mw).months_alg1_2027 ≤ 12 := by
  refine ⟨scenario_m26 A sm tc hc me sz nc sn hf fa ca mw, ?_⟩
  rw [scenario_m26, scenario_m27]
  omega

/-- Witness for C1 at the reference scenario. -/
theorem alg1_exit_year_formula_and_cap_witness :
    (calculate_scenario 90000 6 "Tax Class 3 (Married)" false 3000 0 0 "Bayern (Bavaria)"
        true 250 [] 6).months_alg1_2026 = max 0 (12 - 6 - 0) ∧
    (calculate_scenario 90000 6 "Tax Class 3 (Married)" false 3000 0 0 "Bayern (Bavaria)"
        true 250 [] 6).months_alg1_2026 +
      (calculate_scenario 90000 6 "Tax Class 3 (Married)" false 3000 0 0 "Bayern (Bavaria)"
        true 250 [] 6).months_alg1_2027 ≤ 12 :=
  alg1_exit_year_formula_and_cap 90000 6 "Tax Class 3 (Married)" false 3000 0 0
    "Bayern (Bavaria)" true 250 [] 6 (by norm_num) (by norm_num) (by norm_num) (by norm_num)

/-- C10: under the same input bounds the two-year benefit-month total is
exactly 12 — work and sperrzeit only shift months into the following
year, never reduce the total below the cap. -/
theorem alg1_total_months_exactly_twelve (A sm : ℚ) (tc : String) (hc : Bool) (me : ℚ)
    (sz : ℤ) (nc : ℕ) (sn : String) (hf : Bool) (fa : ℚ) (ca : List ℤ) (mw : ℤ)
    (hmw1 : 1 ≤ mw) (hmw2 : mw ≤ 12) (hsz1 : 0 ≤ sz) (hsz2 : sz ≤ 6) :
    (calculate_scenario A sm tc hc me sz nc sn hf fa ca mw).months_alg1_2026 +
      (calculate_scenario A sm tc hc me sz nc sn hf fa ca mw).months_alg1_2027 = 12 := by
  rw [scenario_m26, scenario_m27]
  omega

/-- Witness for C10 at a maximal-sperrzeit input (worked 1, sperrzeit 6). -/
theorem alg1_total_months_exactly_twelve_witness :
    (calculate_scenario 90000 6 "Tax Class 1 (Single)" false 3000 6 0 "Berlin"
        false 0 [] 1).months_alg1_2026 +
      (calculate_scenario 90000 6 "Tax Class 1 (Single)" false 3000 6 0 "Berlin"
        false 0 [] 1).months_alg1_2027 = 12 :=
  alg1_total_months_exactly_twelve 90000 6 "Tax Class 1 (Single)" false 3000 6 0 "Berlin"
    false 0 [] 1 (by norm_num) (by norm_num) (by norm_num) (by norm_num)

/-- C2: the two-step five-fifths construction yields a total tax exactly
equal to `grossSeverance * (1 - netRate)`, and net severance plus tax
round-trips to the gross severance, in exact arithmetic. -/
theorem fuenftelregelung_round_trip (A sev r : ℚ) (hA : 0 < A) (hsev : 0 ≤ sev)
    (hr0 : 0 < r) (hr1 : r < 1) :
    (calculate_fuenftelregelung_tax A sev r).2.1 = sev * (1 - r) ∧
    (calculate_fuenftelregelung_tax A sev r).1 +
      (calculate_fuenftelregelung_tax A sev r).2.1 = sev := by
  refine ⟨fuenftel_tax A sev r, ?_⟩
  rw [fuenftel_net, fuenftel_tax]
  ring

/-- Witness for C2 at the reference scenario's numbers. -/
theorem fuenftelregelung_round_trip_witness :
    (calculate_fuenftelregelung_tax 90000 45000 (67/100)).2.1 = 45000 * (1 - 67/100) ∧
    (calculate_fuenftelregelung_tax 90000 45000 (67/100)).1 +
      (calculate_fuenftelregelung_tax 90000 45000 (67/100)).2.1 = 45000 :=
  fuenftelregelung_round_trip 90000 45000 (67/100) (by norm_num) (by norm_num)
    (by norm_num) (by norm_num)

/-- C3 counterexample: at the in-domain input `annualGrossSalary = 0`
(documented domain only requires `annualGrossSalary ≥ 0`), the solver's
break-even division divides by `netPerSeveranceMonth = 0` and raises
`ZeroDivisionError` (modelled as `none`), so the end-to-end computation
does not complete. -/
theorem breakeven_raises_on_zero_salary :
    breakeven_monthsDiv 0 6 "Tax Class 3 (Married)" false 3000 0 0 "Unknown" false 0 [] 6 =
      none := by
  have h : net_per_severance_month 0 6 "Tax Class 3 (Married)" false 3000 0 0 "Unknown"
      false 0 [] 6 = 0 := by
    show (calculate_scenario 0 6 "Tax Class 3 (Married)" false 3000 0 0 "Unknown"
        false 0 [] 6).monthly_gross * _ = 0
    rw [scenario_monthly_gross]
    norm_num
  unfold breakeven_monthsDiv
  rw [if_pos h]

/-- C3 amended: for every input in the documented domain with
`annualGrossSalary > 0` (instead of `≥ 0`), the end-to-end core
computation — `calculate_scenario` (whose runway and rate divisions are
guarded), and the recommendation solver's break-even division — completes
without raising: the break-even divisor `netPerSeveranceMonth` is then
strictly positive. -/
theorem core_pipeline_total_for_positive_salary (A sm : ℚ) (tc : String) (hc : Bool)
    (me : ℚ) (sz : ℤ) (nc : ℕ) (sn : String) (hf : Bool) (fa : ℚ) (ca : List ℤ) (mw : ℤ)
    (hA : 0 < A) (hsm : 0 ≤ sm) (hme : 0 ≤ me) (hsz1 : 0 ≤ sz) (hsz2 : sz ≤ 6)
    (hmw1 : 1 ≤ mw) (hmw2 : mw ≤ 12) :
    (breakeven_monthsDiv A sm tc hc me sz nc sn hf fa ca mw).isSome = true := by
  have hne : net_per_severance_month A sm tc hc me sz nc sn hf fa ca mw ≠ 0 :=
    ne_of_gt (net_per_severance_month_pos A sm tc hc me sz nc sn hf fa ca mw hA)
  unfold breakeven_monthsDiv
  rw [if_neg hne]
  rfl

/-- Witness for amended C3 at the reference scenario. -/
theorem core_pipeline_total_for_positive_salary_witness :
    (breakeven_monthsDiv 90000 6 "Tax Class 3 (Married)" false 3000 0 0 "Bayern (Bavaria)"
      true 250 [] 6).isSome = true :=
  core_pipeline_total_for_positive_salary 90000 6 "Tax Class 3 (Married)" false 3000 0 0
    "Bayern (Bavaria)" true 250 [] 6 (by norm_num) (by norm_num) (by norm_num) (by norm_num)
    (by norm_num) (by norm_num) (by norm_num)

/-- C4 counterexample: on the malformed (non-numeric) postal-code string
`"abcde"` the function `get_state_from_plz` itself raises `ValueError`
at its first line `plz = int(plz)` (modelled as `none`) — it does throw
to its caller, contrary to the claim. -/
theorem get_state_from_plz_raises_on_malformed :
    get_state_from_plz_str "abcde" = none := by
  decide

/-- C4 amended: malformed postal codes never propagate past the caller:
the caller-level resolution (`get_state_from_plz` wrapped in the caller's
`try/except`) maps every unparsable string to the Unknown sentinel with
no family benefit and amount 0, and for every integer input — including
out-of-range values — `get_state_from_plz` returns without raising, with
out-of-range codes mapped to the same sentinel.  (`get_state_from_plz`
itself does raise `ValueError` on non-numeric strings; the `except`
branch in `main` converts that to the sentinel.) -/
theorem region_resolution_sentinel_fallback :
    (∀ s : String, pyIntOfString s = none → resolve_region s = ("Unknown", false, 0)) ∧
    (∀ n : ℤ, n < 0 ∨ 99999 < n → get_state_from_plz n = ("Unknown", false, 0)) := by
  constructor
  · intro s hs
    unfold resolve_region get_state_from_plz_str
    rw [hs]
    split <;> rfl
  · intro n hn
    have c1 : ¬(80000 ≤ n ∧ n ≤ 87999 ∨ 89000 ≤ n ∧ n ≤ 89999 ∨
        91000 ≤ n ∧ n ≤ 94999) := by omega
    have c2 : ¬(1000 ≤ n ∧ n ≤ 1999 ∨ 2600 ≤ n ∧ n ≤ 2999 ∨
        4000 ≤ n ∧ n ≤ 4999) := by omega
    have c3 : ¬(96000 ≤ n ∧ n ≤ 99999 ∨ 7000 ≤ n ∧ n ≤ 7999) := by omega
    have c4 : ¬(10000 ≤ n ∧ n ≤ 14999) := by omega
    have c5 : ¬(3000 ≤ n ∧ n ≤ 3999 ∨ 14400 ≤ n ∧ n ≤ 16999 ∨
        19300 ≤ n ∧ n ≤ 19357) := by omega
    have c6 : ¬((17000 ≤ n ∧ n ≤ 19999) ∧ ¬(19300 ≤ n ∧ n ≤ 19357)) := by omega
    have c7 : ¬(20000 ≤ n ∧ n ≤ 21999 ∨ 22000 ≤ n ∧ n ≤ 22999 ∨
        27000 ≤ n ∧ n ≤ 27999) := by omega
    have c8 : ¬(24000 ≤ n ∧ n ≤ 25999 ∨ 23000 ≤ n ∧ n ≤ 23999) := by omega
    have c9 : ¬(28000 ≤ n ∧ n ≤ 28999 ∨ (26000 ≤ n ∧ n ≤ 27999) ∧
        ¬(27000 ≤ n ∧ n ≤ 27999)) := by omega
    have c10 : ¬(26000 ≤ n ∧ n ≤ 27999 ∨ 29000 ≤ n ∧ n ≤ 31999 ∨
        37000 ≤ n ∧ n ≤ 38999 ∨ 48000 ≤ n ∧ n ≤ 49999) := by omega
    have c11 : ¬(32000 ≤ n ∧ n ≤ 33999 ∨ 34000 ≤ n ∧ n ≤ 36999 ∨
        40000 ≤ n ∧ n ≤ 47999 ∨ 50000 ≤ n ∧ n ≤ 53999 ∨
        57000 ≤ n ∧ n ≤ 59999) := by omega
    have c12 : ¬(34000 ≤ n ∧ n ≤ 36999 ∨ 60000 ≤ n ∧ n ≤ 64999 ∨
        65000 ≤ n ∧ n ≤ 66999) := by omega
    have c13 : ¬(54000 ≤ n ∧ n ≤ 56999 ∨ 66000 ≤ n ∧ n ≤ 67999) := by omega
    have c14 : ¬(66000 ≤ n ∧ n ≤ 66999) := by omega
    have c15 : ¬(68000 ≤ n ∧ n ≤ 69999 ∨ 70000 ≤ n ∧ n ≤ 76999 ∨
        77000 ≤ n ∧ n ≤ 79999 ∨ 88000 ≤ n ∧ n ≤ 88999) := by omega
    have c16 : ¬(6000 ≤ n ∧ n ≤ 6999 ∨ 38000 ≤ n ∧ n ≤ 39999) := by omega
    unfold get_state_from_plz
    rw [if_neg c1, if_neg c2, if_neg c3, if_neg c4, if_neg c5, if_neg c6, if_neg c7,
      if_neg c8, if_neg c9, if_neg c10, if_neg c11, if_neg c12, if_neg c13, if_neg c14,
      if_neg c15, if_neg c16]

/-- Witness for amended C4: the malformed string `"abcde"` and the
out-of-range code 100000 both resolve to the sentinel. -/
theorem region_resolution_sentinel_fallback_witness :
    resolve_region "abcde" = ("Unknown", false, 0) ∧
    get_state_from_plz 100000 = ("Unknown", false, 0) :=
  ⟨region_resolution_sentinel_fallback.1 "abcde" (by decide),
   region_resolution_sentinel_fallback.2 100000 (by omega)⟩

/-- C5: whenever `netPerSeveranceMonth > 0`, the solver's three integer
candidates (computed in the source with Python `int()` truncation) equal
exactly `max(1, floor(breakevenExact) - 1)`, `max(1, ceil(breakevenExact))`
and `max(1, floor(breakevenExact) + 2)`, with
`breakevenExact = currentSeveranceMonths +
(totalExpenses - totalIncomeAfterExit) / netPerSeveranceMonth`. -/
theorem recommended_options_floor_ceil_formulas (A sm : ℚ) (tc : String) (hc : Bool)
    (me : ℚ) (sz : ℤ) (nc : ℕ) (sn : String) (hf : Bool) (fa : ℚ) (ca : List ℤ) (mw : ℤ)
    (hpos : 0 < net_per_severance_month A sm tc hc me sz nc sn hf fa ca mw) :
    recommended_options A sm tc hc me sz nc sn hf fa ca mw =
      some (max 1 (⌊breakeven_exact A sm tc hc me sz nc sn hf fa ca mw⌋ - 1),
            max 1 ⌈breakeven_exact A sm tc hc me sz nc sn hf fa ca mw⌉,
            max 1 (⌊breakeven_exact A sm tc hc me sz nc sn hf fa ca mw⌋ + 2)) ∧
    breakeven_exact A sm tc hc me sz nc sn hf fa ca mw =
      sm + (total_expenses_projected me mw -
          (calculate_scenario A sm tc hc me sz nc sn hf fa ca mw).cash_after_exit) /
        net_per_severance_month A sm tc hc me sz nc sn hf fa ca mw := by
  refine ⟨?_, rfl⟩
  unfold recommended_options breakeven_monthsDiv
  rw [if_neg (ne_of_gt hpos)]
  simp only [Option.map_some', max_one_pyint_sub_one, max_one_pyint_add_two]

/-- Witness for C5 at the reference scenario (breakeven ≈ 3.546, so the
candidates are 2, 4 and 5). -/
theorem recommended_options_floor_ceil_formulas_witness :
    recommended_options 90000 6 "Tax Class 3 (Married)" false 3000 0 0 "Bayern (Bavaria)"
        true 250 [] 6 =
      some (max 1 (⌊breakeven_exact 90000 6 "Tax Class 3 (Married)" false 3000 0 0
              "Bayern (Bavaria)" true 250 [] 6⌋ - 1),
            max 1 ⌈breakeven_exact 90000 6 "Tax Class 3 (Married)" false 3000 0 0
              "Bayern (Bavaria)" true 250 [] 6⌉,
            max 1 (⌊breakeven_exact 90000 6 "Tax Class 3 (Married)" false 3000 0 0
              "Bayern (Bavaria)" true 250 [] 6⌋ + 2)) ∧
    breakeven_exact 90000 6 "Tax Class 3 (Married)" false 3000 0 0 "Bayern (Bavaria)"
        true 250 [] 6 =
      6 + (total_expenses_projected 3000 6 -
          (calculate_scenario 90000 6 "Tax Class 3 (Married)" false 3000 0 0
            "Bayern (Bavaria)" true 250 [] 6).cash_after_exit) /
        net_per_severance_month 90000 6 "Tax Class 3 (Married)" false 3000 0 0
          "Bayern (Bavaria)" true 250 [] 6 :=
  recommended_options_floor_ceil_formulas 90000 6 "Tax Class 3 (Married)" false 3000 0 0
    "Bayern (Bavaria)" true 250 [] 6
    (net_per_severance_month_pos 90000 6 "Tax Class 3 (Married)" false 3000 0 0
      "Bayern (Bavaria)" true 250 [] 6 (by norm_num))

/-- C6: with positive monthly expenses (and a non-negative salary per the
documented domain), a larger `severanceMonths` never yields a smaller
`runway_months`. -/
theorem runway_monotone_in_severance_months (A sm1 sm2 : ℚ) (tc : String) (hc : Bool)
    (me : ℚ) (sz : ℤ) (nc : ℕ) (sn : String) (hf : Bool) (fa : ℚ) (ca : List ℤ) (mw : ℤ)
    (hA : 0 ≤ A) (hsm : sm1 ≤ sm2) (hme : 0 < me) :
    (calculate_scenario A sm1 tc hc me sz nc sn hf fa ca mw).runway_months ≤
      (calculate_scenario A sm2 tc hc me sz nc sn hf fa ca mw).runway_months := by
  rw [scenario_runway, scenario_runway, if_pos hme, if_pos hme,
    div_le_div_iff_of_pos_right hme, scenario_cash, scenario_cash]
  obtain ⟨e1, e2, e3, e4, e5, e6⟩ :=
    scenario_benefits_indep A sm1 sm2 tc hc me sz nc sn hf fa ca mw
  rw [e1, e2, e3, e4, e5, e6, scenario_net_severance, scenario_net_severance]
  have h12 : (0 : ℚ) ≤ A / 12 := by positivity
  have key : A / 12 * sm1 * net_rate_salary tc ≤ A / 12 * sm2 * net_rate_salary tc :=
    mul_le_mul_of_nonneg_right (mul_le_mul_of_nonneg_left hsm h12)
      (net_rate_salary_pos tc).le
  linarith

/-- Witness for C6: 5 versus 6 severance months at the reference
scenario. -/
theorem runway_monotone_in_severance_months_witness :
    (calculate_scenario 90000 5 "Tax Class 3 (Married)" false 3000 0 0 "Bayern (Bavaria)"
        true 250 [] 6).runway_months ≤
      (calculate_scenario 90000 6 "Tax Class 3 (Married)" false 3000 0 0 "Bayern (Bavaria)"
        true 250 [] 6).runway_months :=
  runway_monotone_in_severance_months 90000 5 6 "Tax Class 3 (Married)" false 3000 0 0
    "Bayern (Bavaria)" true 250 [] 6 (by norm_num) (by norm_num) (by norm_num)

/-- C7: the concrete reference scenario — salary 90000, severance 6
months, married tax class (net rate 0.67), no children, postal code
89231, expenses 3000, sperrzeit 0, 6 months worked — resolves to the
Bayern region and yields monthly gross 7500, gross severance 45000, 6
exit-year and 6 following-year benefit months, and an effective severance
tax rate strictly between 0.20 and 0.45 (it is exactly 0.33). -/
theorem concrete_scenario_plz_89231 :
    get_state_from_plz_str "89231" = some ("Bayern (Bavaria)", true, 250) ∧
    (calculate_scenario 90000 6 "Tax Class 3 (Married)" false 3000 0 0 "Bayern (Bavaria)"
      true 250 [] 6).monthly_gross = 7500 ∧
    (calculate_scenario 90000 6 "Tax Class 3 (Married)" false 3000 0 0 "Bayern (Bavaria)"
      true 250 [] 6).gross_severance = 45000 ∧
    (calculate_scenario 90000 6 "Tax Class 3 (Married)" false 3000 0 0 "Bayern (Bavaria)"
      true 250 [] 6).months_alg1_2026 = 6 ∧
    (calculate_scenario 90000 6 "Tax Class 3 (Married)" false 3000 0 0 "Bayern (Bavaria)"
      true 250 [] 6).months_alg1_2027 = 6 ∧
    20/100 < (calculate_scenario 90000 6 "Tax Class 3 (Married)" false 3000 0 0
      "Bayern (Bavaria)" true 250 [] 6).sev_tax_rate ∧
    (calculate_scenario 90000 6 "Tax Class 3 (Married)" false 3000 0 0 "Bayern (Bavaria)"
      true 250 [] 6).sev_tax_rate < 45/100 := by
  have hrate : (calculate_scenario 90000 6 "Tax Class 3 (Married)" false 3000 0 0
      "Bayern (Bavaria)" true 250 [] 6).sev_tax_rate = 33/100 := by
    rw [scenario_sev_tax_rate, fuenftel_eff _ _ _ (by norm_num)]
    unfold net_rate_salary
    rw [if_pos rfl]
    norm_num
  refine ⟨by decide, ?_, ?_, by decide, by decide, ?_, ?_⟩
  · rw [scenario_monthly_gross]; norm_num
  · rw [scenario_gross_severance]; norm_num
  · rw [hrate]; norm_num
  · rw [hrate]; norm_num

/-- C8: with zero gross severance the tax function returns effective rate
0 and net severance 0, and (its only division being guarded by the
`severance_amount > 0` test) raises no exception. -/
theorem zero_severance_no_tax_no_error (A r : ℚ) (hA : 0 ≤ A) (hr0 : 0 < r) (hr1 : r < 1) :
    (calculate_fuenftelregelung_tax A 0 r).2.2 = 0 ∧
    (calculate_fuenftelregelung_tax A 0 r).1 = 0 := by
  constructor
  · show (if (0 : ℚ) > 0 then ((A + 0 / 5) * (1 - r) - A * (1 - r)) * 5 / 0 else 0) = 0
    norm_num
  · rw [fuenftel_net]
    ring

/-- Witness for C8 at salary 90000 and net rate 0.67. -/
theorem zero_severance_no_tax_no_error_witness :
    (calculate_fuenftelregelung_tax 90000 0 (67/100)).2.2 = 0 ∧
    (calculate_fuenftelregelung_tax 90000 0 (67/100)).1 = 0 :=
  zero_severance_no_tax_no_error 90000 (67/100) (by norm_num) (by norm_num) (by norm_num)

/-- C9: for every postal code in 0..99999 the two carve-out clauses never
change the resolver's result: under first-match order the Brandenburg
branch already captures 19300–19357 before Mecklenburg-Vorpommern is
tested, and the Hamburg branch already captures 27000–27999 before
Bremen is tested, so `get_state_from_plz` is extensionally equal to the
same ordered rule list with both carve-outs removed. -/
theorem carveout_clauses_redundant (plz : ℤ) (h0 : 0 ≤ plz) (h1 : plz ≤ 99999) :
    get_state_from_plz plz = get_state_from_plz_no_carveouts plz := by
  unfold get_state_from_plz get_state_from_plz_no_carveouts
  refine if_ctx_congr Iff.rfl (fun _ => rfl) (fun h1 => ?_)
  refine if_ctx_congr Iff.rfl (fun _ => rfl) (fun h2 => ?_)
  refine if_ctx_congr Iff.rfl (fun _ => rfl) (fun h3 => ?_)
  refine if_ctx_congr Iff.rfl (fun _ => rfl) (fun h4 => ?_)
  refine if_ctx_congr Iff.rfl (fun _ => rfl) (fun h5 => ?_)
  refine if_ctx_congr (by omega) (fun _ => rfl) (fun h6 => ?_)
  refine if_ctx_congr Iff.rfl (fun _ => rfl) (fun h7 => ?_)
  refine if_ctx_congr Iff.rfl (fun _ => rfl) (fun h8 => ?_)
  refine if_ctx_congr (by omega) (fun _ => rfl) (fun h9 => ?_)
  refine if_ctx_congr Iff.rfl (fun _ => rfl) (fun h10 => ?_)
  refine if_ctx_congr Iff.rfl (fun _ => rfl) (fun h11 => ?_)
  refine if_ctx_congr Iff.rfl (fun _ => rfl) (fun h12 => ?_)
  refine if_ctx_congr Iff.rfl (fun _ => rfl) (fun h13 => ?_)
  refine if_ctx_congr Iff.rfl (fun _ => rfl) (fun h14 => ?_)
  refine if_ctx_congr Iff.rfl (fun _ => rfl) (fun h15 => ?_)
  refine if_ctx_congr Iff.rfl (fun _ => rfl) (fun h16 => ?_)
  rfl

/-- Witness for C9 inside the Mecklenburg-Vorpommern carve-out range. -/
theorem carveout_clauses_redundant_witness :
    get_state_from_plz 19320 = get_state_from_plz_no_carveouts 19320 :=
  carveout_clauses_redundant 19320 (by norm_num) (by norm_num)

end SeveranceCalc
